import Mathlib

/-!
Verification of the renovation-journey state machine (server/app): the
Sentinel extraction path (`chat/sentinel.py`, `chat/sentinel_functions.py`),
the milestone completion evaluators (`chat/sentinel_functions.py`,
`app/crud.py`), the prompt selector (`chat/prompts.py`) and the fallback
keyword extractor (`chat/handler.py`), shallowly embedded in Lean.

Strings are modelled as Lean `String`; Python truthiness of an
`Optional[str]` field (`None` and `""` are falsy) is `truthy`; Python's
substring test `a in b` is `pySubstr`; Python `str.lower` / `str.strip`
are `pyLower` / `pyStrip` (ASCII, which covers every vocabulary word in
the source).  Timestamps are an abstract `Nat` passed in by the caller
(`datetime.utcnow()` in the source).  The entity store is modelled as the
single journey the claims are about (`Option Journey`, `none` = row
absent), with lookup by id.
-/

/-- Python truthiness of a checked prefix of a character list. -/
def startsWithL : List Char → List Char → Bool
  | [], _ => true
  | _ :: _, [] => false
  | a :: as, b :: bs => a == b && startsWithL as bs

/-- Containment of `needle` as a contiguous run inside a character list. -/
def containsL (needle : List Char) : List Char → Bool
  | [] => needle.isEmpty
  | c :: rest => startsWithL needle (c :: rest) || containsL needle rest

/-- Python's `needle in hay` substring test on strings. -/
def pySubstr (needle hay : String) : Bool := containsL needle.data hay.data

/-- Python's `str.lower()` (ASCII range, like `Char.toLower`). -/
def pyLower (s : String) : String := ⟨s.data.map Char.toLower⟩

/-- Characters removed by Python's `str.strip()`. -/
def pySpace (c : Char) : Bool :=
  c == ' ' || c == '\t' || c == '\n' || c == '\r' || c == '\x0b' || c == '\x0c'

/-- Python's `str.strip()`. -/
def pyStrip (s : String) : String :=
  ⟨((s.data.dropWhile pySpace).reverse.dropWhile pySpace).reverse⟩

/-- Python truthiness of an `Optional[str]` column: `None` and `""` are falsy. -/
def truthy : Option String → Bool
  | none => false
  | some s => !s.data.isEmpty

/-- The `RenovationJourney` row (`app/schemas.py`), restricted to the fields
the chat logic reads and writes: the six checkpoint columns, the three
completion flags with their timestamps, `current_milestone` and `status`. -/
structure Journey where
  id : Int
  current_milestone : Int
  status : String
  room : Option String
  renovation_purpose : Option String
  budget_range : Option String
  timeline : Option String
  style_preference : Option String
  priority_feature : Option String
  milestone1_completed : Bool
  milestone2_completed : Bool
  milestone3_completed : Bool
  milestone1_completed_at : Option Nat
  milestone2_completed_at : Option Nat
  milestone3_completed_at : Option Nat
deriving DecidableEq, Repr

/-- The journey `crud.create_journey` inserts: milestone 1, `in_progress`,
every checkpoint null, no completion flags. -/
def create_journey (jid : Int) : Journey :=
  { id := jid
    current_milestone := 1
    status := "in_progress"
    room := none
    renovation_purpose := none
    budget_range := none
    timeline := none
    style_preference := none
    priority_feature := none
    milestone1_completed := false
    milestone2_completed := false
    milestone3_completed := false
    milestone1_completed_at := none
    milestone2_completed_at := none
    milestone3_completed_at := none }

/-- The `valid_checkpoints` list of `sentinel_functions.update_journey`. -/
def valid_checkpoints : List String :=
  ["room", "renovation_purpose", "budget_range",
   "timeline", "style_preference", "priority_feature"]

/-- Effect of `crud.update_journey(db, id, {checkpoint_name: value})`:
`setattr` on the named checkpoint column (an unknown name touches
nothing the chat logic reads). -/
def setCheckpoint (j : Journey) (name value : String) : Journey :=
  if name = "room" then { j with room := some value }
  else if name = "renovation_purpose" then { j with renovation_purpose := some value }
  else if name = "budget_range" then { j with budget_range := some value }
  else if name = "timeline" then { j with timeline := some value }
  else if name = "style_preference" then { j with style_preference := some value }
  else if name = "priority_feature" then { j with priority_feature := some value }
  else j

/-- Read a checkpoint column by its name. -/
def getCheckpoint (j : Journey) (name : String) : Option String :=
  if name = "room" then j.room
  else if name = "renovation_purpose" then j.renovation_purpose
  else if name = "budget_range" then j.budget_range
  else if name = "timeline" then j.timeline
  else if name = "style_preference" then j.style_preference
  else if name = "priority_feature" then j.priority_feature
  else none

/-- Milestone-1 completion test of `sentinel_functions.update_milestone`:
`all([journey.room, journey.renovation_purpose])`. -/
def milestone1_complete (j : Journey) : Bool :=
  truthy j.room && truthy j.renovation_purpose

/-- Milestone-2 completion test: `all([journey.budget_range, journey.timeline])`. -/
def milestone2_complete (j : Journey) : Bool :=
  truthy j.budget_range && truthy j.timeline

/-- Milestone-3 completion test:
`all([journey.style_preference, journey.priority_feature])`. -/
def milestone3_complete (j : Journey) : Bool :=
  truthy j.style_preference && truthy j.priority_feature

/-- Final value of the `highest_completed_milestone` local of
`sentinel_functions.update_milestone` (the variable is assigned in
milestone order, so the last complete milestone wins). -/
def highest_completed_milestone (j : Journey) : Int :=
  if milestone3_complete j then 3
  else if milestone2_complete j then 2
  else if milestone1_complete j then 1
  else 0

/-- The stricter evaluator `sentinel_functions.update_milestone`, run after
every Sentinel tool-handler update: evaluates all three milestones, sets
the flags/timestamps of every newly complete milestone, sets
`status = "completed"` when milestone 3 first completes, and raises
`current_milestone` to `highest_completed_milestone + 1` only when
`highest_completed_milestone < 3` and the journey is behind. -/
def update_milestone (j : Journey) (t : Nat) : Journey :=
  { j with
    milestone1_completed :=
      if milestone1_complete j && !j.milestone1_completed then true
      else j.milestone1_completed
    milestone1_completed_at :=
      if milestone1_complete j && !j.milestone1_completed then some t
      else j.milestone1_completed_at
    milestone2_completed :=
      if milestone2_complete j && !j.milestone2_completed then true
      else j.milestone2_completed
    milestone2_completed_at :=
      if milestone2_complete j && !j.milestone2_completed then some t
      else j.milestone2_completed_at
    milestone3_completed :=
      if milestone3_complete j && !j.milestone3_completed then true
      else j.milestone3_completed
    milestone3_completed_at :=
      if milestone3_complete j && !j.milestone3_completed then some t
      else j.milestone3_completed_at
    status :=
      if milestone3_complete j && !j.milestone3_completed then "completed"
      else j.status
    current_milestone :=
      if highest_completed_milestone j < 3 ∧
          j.current_milestone < highest_completed_milestone j + 1 then
        highest_completed_milestone j + 1
      else j.current_milestone }

/-- The current-milestone-only evaluator, identical in
`crud.check_milestone_completion`, `Sentinel._check_milestone_completion`
and `JourneyHandler._check_milestone_completion`: an `if/elif/elif` chain
on `current_milestone` that flags the current milestone when its two
checkpoints are truthy, marking the journey completed at milestone 3. -/
def check_milestone_completion (j : Journey) (t : Nat) : Journey :=
  if j.current_milestone = 1 ∧ j.milestone1_completed = false then
    if truthy j.room && truthy j.renovation_purpose then
      { j with milestone1_completed := true, milestone1_completed_at := some t }
    else j
  else if j.current_milestone = 2 ∧ j.milestone2_completed = false then
    if truthy j.budget_range && truthy j.timeline then
      { j with milestone2_completed := true, milestone2_completed_at := some t }
    else j
  else if j.current_milestone = 3 ∧ j.milestone3_completed = false then
    if truthy j.style_preference && truthy j.priority_feature then
      { j with milestone3_completed := true, milestone3_completed_at := some t,
               status := "completed" }
    else j
  else j

/-- Lookup of `crud.get_journey` restricted to the store of the one journey
under consideration. -/
def getJourney (db : Option Journey) (journey_id : Int) : Option Journey :=
  match db with
  | some j => if j.id = journey_id then some j else none
  | none => none

/-- Outcome dictionary of the `update_journey` tool handler: `success: True`
or one of its structured `error` returns. -/
inductive HandlerOutcome
  | success
  | errMissingJourneyId
  | errMissingArgs
  | errInvalidCheckpoint
  | errNotFound
deriving DecidableEq, Repr

/-- The Sentinel's tool handler `sentinel_functions.update_journey`: checks
`journey_id` truthiness, `checkpoint_name`/`value` truthiness, membership
of the name in `valid_checkpoints`, fetches the journey, writes the single
field via `crud.update_journey`, commits, and runs `update_milestone`.
Returns the new store plus the handler's structured result. -/
def update_journey (db : Option Journey) (journey_id : Int)
    (checkpoint_name value : Option String) (t : Nat) :
    Option Journey × HandlerOutcome :=
  if journey_id = 0 then (db, .errMissingJourneyId)
  else
    match checkpoint_name, value with
    | some name, some v =>
        if name.data.isEmpty || v.data.isEmpty then (db, .errMissingArgs)
        else if name ∈ valid_checkpoints then
          match getJourney db journey_id with
          | none => (db, .errNotFound)
          | some j => (some (update_milestone (setCheckpoint j name v) t), .success)
        else (db, .errInvalidCheckpoint)
    | _, _ => (db, .errMissingArgs)

/-- The target question of `Sentinel._get_next_checkpoint_to_extract`:
the first null checkpoint of the current milestone in the fixed order
room/renovation_purpose, budget_range/timeline,
style_preference/priority_feature, as a (question, checkpoint) pair. -/
def get_next_checkpoint_to_extract (j : Journey) : Option (String × String) :=
  if j.current_milestone = 1 then
    if !truthy j.room then
      some ("Which room do you want to renovate?", "room")
    else if !truthy j.renovation_purpose then
      some ("What is the main purpose of your renovation?", "renovation_purpose")
    else none
  else if j.current_milestone = 2 then
    if !truthy j.budget_range then
      some ("What kind of budget do you have in mind for this renovation?",
            "budget_range")
    else if !truthy j.timeline then
      some ("How quickly are you hoping to complete this renovation?", "timeline")
    else none
  else if j.current_milestone = 3 then
    if !truthy j.style_preference then
      some ("What style are you going for in this renovation?", "style_preference")
    else if !truthy j.priority_feature then
      some ("What's the most important feature you want in your renovation?",
            "priority_feature")
    else none
  else none

/-- The `valid_rooms` list of `Sentinel._validate_checkpoint_value`. -/
def valid_rooms : List String :=
  ["kitchen", "bathroom", "bedroom", "living room", "dining room", "basement",
   "attic", "office", "master bedroom", "guest bedroom", "den", "family room",
   "laundry room", "utility room", "garage"]

/-- The `valid_purposes` list of `Sentinel._validate_checkpoint_value`. -/
def valid_purposes : List String :=
  ["aesthetic", "functional", "repair", "modernize", "expand space"]

/-- The Registry normalizer `Sentinel._validate_checkpoint_value`:
`value.strip().lower()`, then per-checkpoint substring tests in the
source's order, with the documented defaults (`medium`, `months`,
`modern`, `space`) when nothing matches. -/
def validate_checkpoint_value (checkpoint rawValue : String) : String :=
  let value := pyStrip (pyLower rawValue)
  if checkpoint = "room" then
    match valid_rooms.find? (fun room => pySubstr room value) with
    | some room => room
    | none => value
  else if checkpoint = "renovation_purpose" then
    match valid_purposes.find? (fun purpose => pySubstr purpose value) with
    | some purpose => purpose
    | none =>
      if pySubstr "look" value || pySubstr "appearanc" value ||
          pySubstr "beaut" value then "aesthetic"
      else if pySubstr "use" value || pySubstr "practi" value ||
          pySubstr "utili" value then "functional"
      else if pySubstr "fix" value || pySubstr "broke" value ||
          pySubstr "damage" value then "repair"
      else if pySubstr "updat" value || pySubstr "renew" value ||
          pySubstr "fresh" value then "modernize"
      else if pySubstr "more room" value || pySubstr "bigger" value ||
          pySubstr "larger" value then "expand space"
      else value
  else if checkpoint = "budget_range" then
    if pySubstr "low" value || pySubstr "cheap" value || pySubstr "afford" value ||
        pySubstr "budget" value || pySubstr "inexpens" value then "low"
    else if pySubstr "medium" value || pySubstr "moderate" value ||
        pySubstr "reasonable" value || pySubstr "mid" value then "medium"
    else if pySubstr "high" value || pySubstr "expens" value ||
        pySubstr "premium" value || pySubstr "luxury" value then "high"
    else "medium"
  else if checkpoint = "timeline" then
    if pySubstr "quick" value || pySubstr "fast" value || pySubstr "soon" value ||
        pySubstr "week" value || pySubstr "day" value || pySubstr "asap" value then
      "weeks"
    else if pySubstr "slow" value || pySubstr "month" value ||
        pySubstr "time" value || pySubstr "no rush" value ||
        pySubstr "not urgent" value then "months"
    else "months"
  else if checkpoint = "style_preference" then
    if pySubstr "modern" value || pySubstr "contemporary" value ||
        pySubstr "sleek" value || pySubstr "clean" value then "modern"
    else if pySubstr "tradition" value || pySubstr "classic" value ||
        pySubstr "conventional" value then "traditional"
    else if pySubstr "rustic" value || pySubstr "country" value ||
        pySubstr "farmhouse" value || pySubstr "cabin" value ||
        pySubstr "wood" value then "rustic"
    else if pySubstr "minimal" value || pySubstr "simple" value ||
        pySubstr "clean" value then "minimalist"
    else if pySubstr "contemp" value || pySubstr "current" value then "contemporary"
    else "modern"
  else if checkpoint = "priority_feature" then
    if pySubstr "storage" value || pySubstr "cabinet" value ||
        pySubstr "space" value || pySubstr "organization" value then "storage"
    else if pySubstr "light" value || pySubstr "bright" value ||
        pySubstr "dark" value || pySubstr "window" value then "lighting"
    else if pySubstr "space" value || pySubstr "room" value ||
        pySubstr "area" value || pySubstr "open" value then "space"
    else if pySubstr "energy" value || pySubstr "efficient" value ||
        pySubstr "eco" value || pySubstr "green" value then "energy efficiency"
    else if pySubstr "smart" value || pySubstr "tech" value ||
        pySubstr "automation" value || pySubstr "device" value then "smart features"
    else "space"
  else value

/-- The completed-checkpoint list `JourneyHandler._get_completed_checkpoints`
passes to the prompt selector: only the current milestone's truthy
checkpoints, in the milestone's field order. -/
def get_completed_checkpoints (j : Journey) : List String :=
  if j.current_milestone = 1 then
    (if truthy j.room then ["room"] else []) ++
      (if truthy j.renovation_purpose then ["renovation_purpose"] else [])
  else if j.current_milestone = 2 then
    (if truthy j.budget_range then ["budget_range"] else []) ++
      (if truthy j.timeline then ["timeline"] else [])
  else if j.current_milestone = 3 then
    (if truthy j.style_preference then ["style_preference"] else []) ++
      (if truthy j.priority_feature then ["priority_feature"] else [])
  else []

/-- The closed set of prompt templates `prompts.py` can return, one
constructor per template constant (plus the final generic fallback). -/
inductive PromptChoice
  | journeyComplete
  | milestone1Complete
  | milestone1RoomKnown
  | milestone1PurposeKnown
  | milestone1Intro
  | milestone2Complete
  | milestone2BudgetKnown
  | milestone2TimelineKnown
  | milestone2Intro
  | milestone3Complete
  | milestone3StyleKnown
  | milestone3FeatureKnown
  | milestone3Intro
  | defaultPrompt
deriving DecidableEq, Repr

/-- The selection tree of `prompts.get_prompt_for_journey`, abstracted to
which template it returns (the source then interpolates the journey's
values into that template's text). -/
def get_prompt_for_journey (j : Journey) (completed_checkpoints : List String) :
    PromptChoice :=
  if j.status = "completed" then .journeyComplete
  else if j.current_milestone = 1 then
    if j.milestone1_completed then .milestone1Complete
    else if "room" ∈ completed_checkpoints ∧
        "renovation_purpose" ∉ completed_checkpoints then .milestone1RoomKnown
    else if "renovation_purpose" ∈ completed_checkpoints ∧
        "room" ∉ completed_checkpoints then .milestone1PurposeKnown
    else .milestone1Intro
  else if j.current_milestone = 2 then
    if j.milestone2_completed then .milestone2Complete
    else if "budget_range" ∈ completed_checkpoints ∧
        "timeline" ∉ completed_checkpoints then .milestone2BudgetKnown
    else if "timeline" ∈ completed_checkpoints ∧
        "budget_range" ∉ completed_checkpoints then .milestone2TimelineKnown
    else .milestone2Intro
  else if j.current_milestone = 3 then
    if j.milestone3_completed then .milestone3Complete
    else if "style_preference" ∈ completed_checkpoints ∧
        "priority_feature" ∉ completed_checkpoints then .milestone3StyleKnown
    else if "priority_feature" ∈ completed_checkpoints ∧
        "style_preference" ∉ completed_checkpoints then .milestone3FeatureKnown
    else .milestone3Intro
  else .defaultPrompt

/-- The prompt-selection priority tree exactly as the specification words
it, for comparison with `get_prompt_for_journey`: journey-complete when
`status == completed`; otherwise branch on milestone 1..3, inside a
milestone returning its complete template when the flag is set, the
A-known template when exactly checkpoint A is completed, the B-known
template when exactly checkpoint B is, else the intro; a milestone
outside 1..3 gives the generic fallback. -/
def prompt_selection_spec (j : Journey) (completed_checkpoints : List String) :
    PromptChoice :=
  if j.status = "completed" then .journeyComplete
  else if j.current_milestone = 1 then
    if j.milestone1_completed then .milestone1Complete
    else if "room" ∈ completed_checkpoints ∧
        "renovation_purpose" ∉ completed_checkpoints then .milestone1RoomKnown
    else if "renovation_purpose" ∈ completed_checkpoints ∧
        "room" ∉ completed_checkpoints then .milestone1PurposeKnown
    else .milestone1Intro
  else if j.current_milestone = 2 then
    if j.milestone2_completed then .milestone2Complete
    else if "budget_range" ∈ completed_checkpoints ∧
        "timeline" ∉ completed_checkpoints then .milestone2BudgetKnown
    else if "timeline" ∈ completed_checkpoints ∧
        "budget_range" ∉ completed_checkpoints then .milestone2TimelineKnown
    else .milestone2Intro
  else if j.current_milestone = 3 then
    if j.milestone3_completed then .milestone3Complete
    else if "style_preference" ∈ completed_checkpoints ∧
        "priority_feature" ∉ completed_checkpoints then .milestone3StyleKnown
    else if "priority_feature" ∈ completed_checkpoints ∧
        "style_preference" ∉ completed_checkpoints then .milestone3FeatureKnown
    else .milestone3Intro
  else .defaultPrompt

/-- Room keyword table of the fallback extractor
`JourneyHandler._analyze_message_for_checkpoints` (insertion order). -/
def room_keywords : List (String × String) :=
  [("kitchen", "kitchen"), ("bathroom", "bathroom"), ("bedroom", "bedroom"),
   ("living room", "living room"), ("basement", "basement")]

/-- Purpose keyword table of the fallback extractor. -/
def purpose_keywords : List (String × String) :=
  [("aesthetic", "aesthetic"), ("functional", "functional"), ("repair", "repair"),
   ("expand", "expand space"), ("modern", "modernize")]

/-- Budget keyword table of the fallback extractor. -/
def budget_keywords : List (String × String) :=
  [("cheap", "low"), ("affordable", "low"), ("reasonable", "medium"),
   ("mid", "medium"), ("expensive", "high"), ("luxury", "high")]

/-- Timeline keyword table of the fallback extractor. -/
def timeline_keywords : List (String × String) :=
  [("quick", "weeks"), ("fast", "weeks"), ("soon", "weeks"),
   ("month", "months"), ("long", "months")]

/-- Style keyword table of the fallback extractor. -/
def style_keywords : List (String × String) :=
  [("modern", "modern"), ("traditional", "traditional"), ("rustic", "rustic"),
   ("minimalist", "minimalist"), ("contemporary", "contemporary")]

/-- Priority-feature keyword table of the fallback extractor. -/
def feature_keywords : List (String × String) :=
  [("storage", "increased storage"), ("light", "natural lighting"),
   ("space", "open space"), ("energy", "energy efficiency"),
   ("smart", "smart home features")]

/-- Value of the first keyword of the table found in the lowered message
(the `for ... break` loop of the fallback extractor). -/
def firstKeywordMatch (keywords : List (String × String)) (message_lower : String) :
    Option String :=
  (keywords.find? (fun kv => pySubstr kv.1 message_lower)).map (fun kv => kv.2)

/-- Entry of the fallback extractor's `update_data` dict contributed by one
keyword loop. -/
def optUpdate (name : String) : Option String → List (String × String)
  | some v => [(name, v)]
  | none => []

/-- The fallback keyword extractor
`JourneyHandler._analyze_message_for_checkpoints`: lowers the message, runs
the two keyword loops of the current milestone (each loop writes its field
only when that field is still falsy), applies the collected single-field
updates via `crud.update_journey`, and — only when something was written —
re-runs the current-milestone completion evaluator. -/
def analyze_message_for_checkpoints (j : Journey) (message : String) (t : Nat) :
    Journey :=
  let message_lower := pyLower message
  let update_data : List (String × String) :=
    if j.current_milestone = 1 then
      optUpdate "room"
          (if truthy j.room then none
           else firstKeywordMatch room_keywords message_lower) ++
        optUpdate "renovation_purpose"
          (if truthy j.renovation_purpose then none
           else firstKeywordMatch purpose_keywords message_lower)
    else if j.current_milestone = 2 then
      optUpdate "budget_range"
          (if truthy j.budget_range then none
           else firstKeywordMatch budget_keywords message_lower) ++
        optUpdate "timeline"
          (if truthy j.timeline then none
           else firstKeywordMatch timeline_keywords message_lower)
    else if j.current_milestone = 3 then
      optUpdate "style_preference"
          (if truthy j.style_preference then none
           else firstKeywordMatch style_keywords message_lower) ++
        optUpdate "priority_feature"
          (if truthy j.priority_feature then none
           else firstKeywordMatch feature_keywords message_lower)
    else []
  if update_data.isEmpty then j
  else
    check_milestone_completion
      (update_data.foldl (fun a kv => setCheckpoint a kv.1 kv.2) j) t

/-- The change test `Sentinel._journey_was_updated`: compares the six
checkpoint fields, the three completion flags, `current_milestone` and
`status` (timestamps are not compared). -/
def journey_was_updated (original updated : Journey) : Bool :=
  original.room != updated.room ||
  original.renovation_purpose != updated.renovation_purpose ||
  original.budget_range != updated.budget_range ||
  original.timeline != updated.timeline ||
  original.style_preference != updated.style_preference ||
  original.priority_feature != updated.priority_feature ||
  original.milestone1_completed != updated.milestone1_completed ||
  original.milestone2_completed != updated.milestone2_completed ||
  original.milestone3_completed != updated.milestone3_completed ||
  original.current_milestone != updated.current_milestone ||
  original.status != updated.status

/-- Everything the outside world decides during one `Sentinel.analyze` run:
which `update_journey` tool calls the model issues before its call
returns or raises (the inner `except` swallows a raise either way),
whether `db.commit()` raises, whether the `crud.get_journey` re-fetch
raises, and the wall-clock time. -/
structure AnalyzeEnv where
  toolCalls : List (Int × Option String × Option String)
  llmRaised : Bool
  commitRaises : Bool
  refetchRaises : Bool
  t : Nat

/-- Store state after the tool handler ran once per model tool call. -/
def runToolCalls (db : Option Journey)
    (calls : List (Int × Option String × Option String)) (t : Nat) :
    Option Journey :=
  calls.foldl (fun d c => (update_journey d c.1 c.2.1 c.2.2 t).1) db

/-- Result of the body of `Sentinel.analyze`'s outer `try`: either a normal
return value or an escaping exception, with the store state either way. -/
inductive AnalyzeBodyResult
  | ok (db : Option Journey) (ret : Journey)
  | raised (db : Option Journey)

/-- Body of `Sentinel.analyze`'s outer `try`: run the LLM call with the
tool handler (its own exception is swallowed by the inner `except`),
commit, re-fetch the journey, and return the re-fetched journey when
`_journey_was_updated`, else the original.  A failing commit or re-fetch
escapes, as does `_journey_was_updated(journey, None)` (an
`AttributeError` on the `None` re-fetch). -/
def analyzeBody (env : AnalyzeEnv) (db : Option Journey) (j : Journey) :
    AnalyzeBodyResult :=
  let db1 := runToolCalls db env.toolCalls env.t
  if env.commitRaises then .raised db1
  else if env.refetchRaises then .raised db1
  else
    match getJourney db1 j.id with
    | none => .raised db1
    | some updated =>
        .ok db1 (if journey_was_updated j updated then updated else j)

/-- The whole of `Sentinel.analyze`: the outer `except` catches whatever
escapes the body and returns the original journey object. -/
def analyze (env : AnalyzeEnv) (db : Option Journey) (j : Journey) :
    Option Journey × Journey :=
  match analyzeBody env db j with
  | .ok db1 ret => (db1, ret)
  | .raised db1 => (db1, j)

/-- One state-mutating step of the extraction/evaluation machinery: an
explicit single-checkpoint write (`crud.update_checkpoint` and the
fallback extractor write at this granularity), a run of either completion
evaluator, or a full Sentinel tool-handler call. -/
inductive SentinelOp
  | write (name value : String)
  | evalCurrent (t : Nat)
  | evalAll (t : Nat)
  | toolCall (journey_id : Int) (checkpoint_name value : Option String) (t : Nat)

/-- Apply one step to the journey (a tool call that errors leaves it as is). -/
def applyOp (j : Journey) : SentinelOp → Journey
  | .write name value => setCheckpoint j name value
  | .evalCurrent t => check_milestone_completion j t
  | .evalAll t => update_milestone j t
  | .toolCall jid name v t => ((update_journey (some j) jid name v t).1).getD j

/-- Claimed invariant: each completion flag implies both of its milestone's
checkpoint columns are non-null. -/
def checkpointInv (j : Journey) : Prop :=
  (j.milestone1_completed = true → j.room ≠ none ∧ j.renovation_purpose ≠ none) ∧
  (j.milestone2_completed = true → j.budget_range ≠ none ∧ j.timeline ≠ none) ∧
  (j.milestone3_completed = true →
    j.style_preference ≠ none ∧ j.priority_feature ≠ none)

theorem truthy_ne_none {o : Option String} (h : truthy o = true) : o ≠ none := by
  cases o with
  | none => simp [truthy] at h
  | some s => simp

theorem update_milestone_room (j : Journey) (t : Nat) :
    (update_milestone j t).room = j.room := rfl

theorem update_milestone_purpose (j : Journey) (t : Nat) :
    (update_milestone j t).renovation_purpose = j.renovation_purpose := rfl

theorem update_milestone_budget (j : Journey) (t : Nat) :
    (update_milestone j t).budget_range = j.budget_range := rfl

theorem update_milestone_timeline (j : Journey) (t : Nat) :
    (update_milestone j t).timeline = j.timeline := rfl

theorem update_milestone_style (j : Journey) (t : Nat) :
    (update_milestone j t).style_preference = j.style_preference := rfl

theorem update_milestone_feature (j : Journey) (t : Nat) :
    (update_milestone j t).priority_feature = j.priority_feature := rfl

theorem update_milestone_id (j : Journey) (t : Nat) :
    (update_milestone j t).id = j.id := rfl

theorem check_completion_room (j : Journey) (t : Nat) :
    (check_milestone_completion j t).room = j.room := by
  unfold check_milestone_completion; split_ifs <;> rfl

theorem check_completion_purpose (j : Journey) (t : Nat) :
    (check_milestone_completion j t).renovation_purpose = j.renovation_purpose := by
  unfold check_milestone_completion; split_ifs <;> rfl

theorem check_completion_budget (j : Journey) (t : Nat) :
    (check_milestone_completion j t).budget_range = j.budget_range := by
  unfold check_milestone_completion; split_ifs <;> rfl

theorem check_completion_timeline (j : Journey) (t : Nat) :
    (check_milestone_completion j t).timeline = j.timeline := by
  unfold check_milestone_completion; split_ifs <;> rfl

theorem check_completion_style (j : Journey) (t : Nat) :
    (check_milestone_completion j t).style_preference = j.style_preference := by
  unfold check_milestone_completion; split_ifs <;> rfl

theorem check_completion_feature (j : Journey) (t : Nat) :
    (check_milestone_completion j t).priority_feature = j.priority_feature := by
  unfold check_milestone_completion; split_ifs <;> rfl

theorem check_completion_milestone (j : Journey) (t : Nat) :
    (check_milestone_completion j t).current_milestone = j.current_milestone := by
  unfold check_milestone_completion; split_ifs <;> rfl

theorem setCheckpoint_room_eq (j : Journey) (v : String) :
    setCheckpoint j "room" v = { j with room := some v } := rfl

theorem setCheckpoint_purpose_eq (j : Journey) (v : String) :
    setCheckpoint j "renovation_purpose" v =
      { j with renovation_purpose := some v } := rfl

theorem setCheckpoint_budget_eq (j : Journey) (v : String) :
    setCheckpoint j "budget_range" v = { j with budget_range := some v } := rfl

theorem setCheckpoint_timeline_eq (j : Journey) (v : String) :
    setCheckpoint j "timeline" v = { j with timeline := some v } := rfl

theorem setCheckpoint_style_eq (j : Journey) (v : String) :
    setCheckpoint j "style_preference" v =
      { j with style_preference := some v } := rfl

theorem setCheckpoint_feature_eq (j : Journey) (v : String) :
    setCheckpoint j "priority_feature" v =
      { j with priority_feature := some v } := rfl

theorem setCheckpoint_milestone (j : Journey) (name v : String) :
    (setCheckpoint j name v).current_milestone = j.current_milestone := by
  unfold setCheckpoint; split_ifs <;> rfl

theorem setCheckpoint_id (j : Journey) (name v : String) :
    (setCheckpoint j name v).id = j.id := by
  unfold setCheckpoint; split_ifs <;> rfl

theorem setCheckpoint_room_cases (j : Journey) (name v : String) :
    (setCheckpoint j name v).room = j.room ∨
      (setCheckpoint j name v).room = some v := by
  unfold setCheckpoint
  split_ifs <;> first | (left ; rfl) | (right ; rfl)

theorem setCheckpoint_purpose_cases (j : Journey) (name v : String) :
    (setCheckpoint j name v).renovation_purpose = j.renovation_purpose ∨
      (setCheckpoint j name v).renovation_purpose = some v := by
  unfold setCheckpoint
  split_ifs <;> first | (left ; rfl) | (right ; rfl)

theorem setCheckpoint_budget_cases (j : Journey) (name v : String) :
    (setCheckpoint j name v).budget_range = j.budget_range ∨
      (setCheckpoint j name v).budget_range = some v := by
  unfold setCheckpoint
  split_ifs <;> first | (left ; rfl) | (right ; rfl)

theorem setCheckpoint_timeline_cases (j : Journey) (name v : String) :
    (setCheckpoint j name v).timeline = j.timeline ∨
      (setCheckpoint j name v).timeline = some v := by
  unfold setCheckpoint
  split_ifs <;> first | (left ; rfl) | (right ; rfl)

theorem setCheckpoint_style_cases (j : Journey) (name v : String) :
    (setCheckpoint j name v).style_preference = j.style_preference ∨
      (setCheckpoint j name v).style_preference = some v := by
  unfold setCheckpoint
  split_ifs <;> first | (left ; rfl) | (right ; rfl)

theorem setCheckpoint_feature_cases (j : Journey) (name v : String) :
    (setCheckpoint j name v).priority_feature = j.priority_feature ∨
      (setCheckpoint j name v).priority_feature = some v := by
  unfold setCheckpoint
  split_ifs <;> first | (left ; rfl) | (right ; rfl)

theorem setCheckpoint_flags (j : Journey) (name v : String) :
    (setCheckpoint j name v).milestone1_completed = j.milestone1_completed ∧
      (setCheckpoint j name v).milestone2_completed = j.milestone2_completed ∧
      (setCheckpoint j name v).milestone3_completed = j.milestone3_completed := by
  unfold setCheckpoint
  split_ifs <;> exact ⟨rfl, rfl, rfl⟩

theorem update_milestone_flag1 (j : Journey) (t : Nat) :
    (update_milestone j t).milestone1_completed =
      (if milestone1_complete j && !j.milestone1_completed then true
       else j.milestone1_completed) := rfl

theorem update_milestone_flag2 (j : Journey) (t : Nat) :
    (update_milestone j t).milestone2_completed =
      (if milestone2_complete j && !j.milestone2_completed then true
       else j.milestone2_completed) := rfl

theorem update_milestone_flag3 (j : Journey) (t : Nat) :
    (update_milestone j t).milestone3_completed =
      (if milestone3_complete j && !j.milestone3_completed then true
       else j.milestone3_completed) := rfl

theorem update_milestone_current (j : Journey) (t : Nat) :
    (update_milestone j t).current_milestone =
      (if highest_completed_milestone j < 3 ∧
          j.current_milestone < highest_completed_milestone j + 1 then
        highest_completed_milestone j + 1
      else j.current_milestone) := rfl

theorem checkpointInv_setCheckpoint (j : Journey) (name v : String)
    (h : checkpointInv j) : checkpointInv (setCheckpoint j name v) := by
  obtain ⟨h1, h2, h3⟩ := h
  obtain ⟨f1, f2, f3⟩ := setCheckpoint_flags j name v
  refine ⟨?_, ?_, ?_⟩
  · intro hf
    rw [f1] at hf
    obtain ⟨ha, hb⟩ := h1 hf
    constructor
    · rcases setCheckpoint_room_cases j name v with hc | hc
      · rw [hc]; exact ha
      · rw [hc]; simp
    · rcases setCheckpoint_purpose_cases j name v with hc | hc
      · rw [hc]; exact hb
      · rw [hc]; simp
  · intro hf
    rw [f2] at hf
    obtain ⟨ha, hb⟩ := h2 hf
    constructor
    · rcases setCheckpoint_budget_cases j name v with hc | hc
      · rw [hc]; exact ha
      · rw [hc]; simp
    · rcases setCheckpoint_timeline_cases j name v with hc | hc
      · rw [hc]; exact hb
      · rw [hc]; simp
  · intro hf
    rw [f3] at hf
    obtain ⟨ha, hb⟩ := h3 hf
    constructor
    · rcases setCheckpoint_style_cases j name v with hc | hc
      · rw [hc]; exact ha
      · rw [hc]; simp
    · rcases setCheckpoint_feature_cases j name v with hc | hc
      · rw [hc]; exact hb
      · rw [hc]; simp

theorem checkpointInv_check (j : Journey) (t : Nat) (h : checkpointInv j) :
    checkpointInv (check_milestone_completion j t) := by
  obtain ⟨h1, h2, h3⟩ := h
  unfold check_milestone_completion
  split_ifs with hc1 hv1 hc2 hv2 hc3 hv3
  · rw [Bool.and_eq_true] at hv1
    exact ⟨fun _ => ⟨truthy_ne_none hv1.1, truthy_ne_none hv1.2⟩, h2, h3⟩
  · exact ⟨h1, h2, h3⟩
  · rw [Bool.and_eq_true] at hv2
    exact ⟨h1, fun _ => ⟨truthy_ne_none hv2.1, truthy_ne_none hv2.2⟩, h3⟩
  · exact ⟨h1, h2, h3⟩
  · rw [Bool.and_eq_true] at hv3
    exact ⟨h1, h2, fun _ => ⟨truthy_ne_none hv3.1, truthy_ne_none hv3.2⟩⟩
  · exact ⟨h1, h2, h3⟩
  · exact ⟨h1, h2, h3⟩

theorem checkpointInv_update_milestone (j : Journey) (t : Nat)
    (h : checkpointInv j) : checkpointInv (update_milestone j t) := by
  obtain ⟨h1, h2, h3⟩ := h
  refine ⟨?_, ?_, ?_⟩
  · intro hf
    rw [update_milestone_flag1] at hf
    rw [update_milestone_room, update_milestone_purpose]
    by_cases hm : (milestone1_complete j && !j.milestone1_completed) = true
    · rw [Bool.and_eq_true] at hm
      have hm1 := hm.1
      unfold milestone1_complete at hm1
      rw [Bool.and_eq_true] at hm1
      exact ⟨truthy_ne_none hm1.1, truthy_ne_none hm1.2⟩
    · rw [if_neg hm] at hf
      exact h1 hf
  · intro hf
    rw [update_milestone_flag2] at hf
    rw [update_milestone_budget, update_milestone_timeline]
    by_cases hm : (milestone2_complete j && !j.milestone2_completed) = true
    · rw [Bool.and_eq_true] at hm
      have hm1 := hm.1
      unfold milestone2_complete at hm1
      rw [Bool.and_eq_true] at hm1
      exact ⟨truthy_ne_none hm1.1, truthy_ne_none hm1.2⟩
    · rw [if_neg hm] at hf
      exact h2 hf
  · intro hf
    rw [update_milestone_flag3] at hf
    rw [update_milestone_style, update_milestone_feature]
    by_cases hm : (milestone3_complete j && !j.milestone3_completed) = true
    · rw [Bool.and_eq_true] at hm
      have hm1 := hm.1
      unfold milestone3_complete at hm1
      rw [Bool.and_eq_true] at hm1
      exact ⟨truthy_ne_none hm1.1, truthy_ne_none hm1.2⟩
    · rw [if_neg hm] at hf
      exact h3 hf

theorem getJourney_some (db : Option Journey) (jid : Int) (j : Journey)
    (h : getJourney db jid = some j) : db = some j := by
  cases db with
  | none => simp [getJourney] at h
  | some k =>
      simp only [getJourney] at h
      split_ifs at h
      rw [h]

theorem update_journey_store (db : Option Journey) (jid : Int)
    (cn v : Option String) (t : Nat) :
    (update_journey db jid cn v t).1 = db ∨
    ∃ j nm vv, cn = some nm ∧ v = some vv ∧ getJourney db jid = some j ∧
      (update_journey db jid cn v t).1 =
        some (update_milestone (setCheckpoint j nm vv) t) := by
  by_cases h0 : jid = 0
  · left; simp [update_journey, h0]
  rcases cn with _ | nm
  · left; simp [update_journey, h0]
  rcases v with _ | vv
  · left; simp [update_journey, h0]
  by_cases he : (nm.data.isEmpty || vv.data.isEmpty) = true
  · left; simp [update_journey, h0, he]
  by_cases hv : nm ∈ valid_checkpoints
  · cases hg : getJourney db jid with
    | none => left; simp [update_journey, h0, he, hv, hg]
    | some jj =>
        right
        refine ⟨jj, nm, vv, rfl, rfl, rfl, ?_⟩
        simp [update_journey, h0, he, hv, hg]
  · left; simp [update_journey, h0, he, hv]

theorem applyOp_checkpointInv (j : Journey) (op : SentinelOp)
    (h : checkpointInv j) : checkpointInv (applyOp j op) := by
  cases op with
  | write name value => exact checkpointInv_setCheckpoint j name value h
  | evalCurrent t => exact checkpointInv_check j t h
  | evalAll t => exact checkpointInv_update_milestone j t h
  | toolCall jid cn v t =>
      show checkpointInv (((update_journey (some j) jid cn v t).1).getD j)
      rcases update_journey_store (some j) jid cn v t with hs | ⟨jj, nm, vv, _, _, hg, hs⟩
      · rw [hs, Option.getD_some]; exact h
      · have hjj : jj = j := by
          have := getJourney_some (some j) jid jj hg
          exact (Option.some.inj this).symm
        rw [hs, Option.getD_some, hjj]
        exact checkpointInv_update_milestone _ t (checkpointInv_setCheckpoint _ _ _ h)

theorem update_milestone_mono (j : Journey) (t : Nat) :
    j.current_milestone ≤ (update_milestone j t).current_milestone := by
  rw [update_milestone_current]
  split_ifs with hc
  · exact le_of_lt hc.2
  · exact le_refl _

theorem applyOp_mono (j : Journey) (op : SentinelOp) :
    j.current_milestone ≤ (applyOp j op).current_milestone := by
  cases op with
  | write name value => rw [applyOp, setCheckpoint_milestone]
  | evalCurrent t => rw [applyOp, check_completion_milestone]
  | evalAll t => exact update_milestone_mono j t
  | toolCall jid cn v t =>
      show j.current_milestone ≤
        (((update_journey (some j) jid cn v t).1).getD j).current_milestone
      rcases update_journey_store (some j) jid cn v t with hs | ⟨jj, nm, vv, _, _, hg, hs⟩
      · rw [hs, Option.getD_some]
      · have hjj : jj = j := by
          have := getJourney_some (some j) jid jj hg
          exact (Option.some.inj this).symm
        rw [hs, Option.getD_some, hjj]
        calc j.current_milestone
            = (setCheckpoint j nm vv).current_milestone :=
              (setCheckpoint_milestone j nm vv).symm
          _ ≤ _ := update_milestone_mono _ t

theorem checkpointInv_foldl (ops : List SentinelOp) (j : Journey)
    (h : checkpointInv j) : checkpointInv (ops.foldl applyOp j) := by
  induction ops generalizing j with
  | nil => exact h
  | cons op rest ih => exact ih _ (applyOp_checkpointInv j op h)

theorem current_milestone_foldl (ops : List SentinelOp) (j : Journey) :
    j.current_milestone ≤ (ops.foldl applyOp j).current_milestone := by
  induction ops generalizing j with
  | nil => exact le_refl _
  | cons op rest ih => exact le_trans (applyOp_mono j op) (ih _)

theorem check_milestone_completion_idem (j : Journey) (t1 t2 : Nat) :
    check_milestone_completion (check_milestone_completion j t1) t2 =
      check_milestone_completion j t1 := by
  by_cases hc1 : j.current_milestone = 1 ∧ j.milestone1_completed = false
  · by_cases hv1 : (truthy j.room && truthy j.renovation_purpose) = true
    · have e1 : check_milestone_completion j t1 =
          { j with milestone1_completed := true,
                   milestone1_completed_at := some t1 } := by
        unfold check_milestone_completion
        rw [if_pos hc1, if_pos hv1]
      rw [e1]
      unfold check_milestone_completion
      simp [hc1.1]
    · have e1 : check_milestone_completion j t1 = j := by
        unfold check_milestone_completion
        rw [if_pos hc1, if_neg hv1]
      rw [e1]
      unfold check_milestone_completion
      rw [if_pos hc1, if_neg hv1]
  · by_cases hc2 : j.current_milestone = 2 ∧ j.milestone2_completed = false
    · by_cases hv2 : (truthy j.budget_range && truthy j.timeline) = true
      · have e1 : check_milestone_completion j t1 =
            { j with milestone2_completed := true,
                     milestone2_completed_at := some t1 } := by
          unfold check_milestone_completion
          rw [if_neg hc1, if_pos hc2, if_pos hv2]
        rw [e1]
        unfold check_milestone_completion
        simp [hc2.1]
      · have e1 : check_milestone_completion j t1 = j := by
          unfold check_milestone_completion
          rw [if_neg hc1, if_pos hc2, if_neg hv2]
        rw [e1]
        unfold check_milestone_completion
        rw [if_neg hc1, if_pos hc2, if_neg hv2]
    · by_cases hc3 : j.current_milestone = 3 ∧ j.milestone3_completed = false
      · by_cases hv3 : (truthy j.style_preference && truthy j.priority_feature) = true
        · have e1 : check_milestone_completion j t1 =
              { j with milestone3_completed := true,
                       milestone3_completed_at := some t1,
                       status := "completed" } := by
            unfold check_milestone_completion
            rw [if_neg hc1, if_neg hc2, if_pos hc3, if_pos hv3]
          rw [e1]
          unfold check_milestone_completion
          simp [hc3.1]
        · have e1 : check_milestone_completion j t1 = j := by
            unfold check_milestone_completion
            rw [if_neg hc1, if_neg hc2, if_pos hc3, if_neg hv3]
          rw [e1]
          unfold check_milestone_completion
          rw [if_neg hc1, if_neg hc2, if_pos hc3, if_neg hv3]
      · have e1 : check_milestone_completion j t1 = j := by
          unfold check_milestone_completion
          rw [if_neg hc1, if_neg hc2, if_neg hc3]
        rw [e1]
        unfold check_milestone_completion
        rw [if_neg hc1, if_neg hc2, if_neg hc3]

theorem update_milestone_status (j : Journey) (t : Nat) :
    (update_milestone j t).status =
      (if milestone3_complete j && !j.milestone3_completed then "completed"
       else j.status) := rfl

theorem update_milestone_at1 (j : Journey) (t : Nat) :
    (update_milestone j t).milestone1_completed_at =
      (if milestone1_complete j && !j.milestone1_completed then some t
       else j.milestone1_completed_at) := rfl

theorem update_milestone_at2 (j : Journey) (t : Nat) :
    (update_milestone j t).milestone2_completed_at =
      (if milestone2_complete j && !j.milestone2_completed then some t
       else j.milestone2_completed_at) := rfl

theorem update_milestone_at3 (j : Journey) (t : Nat) :
    (update_milestone j t).milestone3_completed_at =
      (if milestone3_complete j && !j.milestone3_completed then some t
       else j.milestone3_completed_at) := rfl

theorem Journey.eq_of_fields {a b : Journey}
    (h1 : a.id = b.id) (h2 : a.current_milestone = b.current_milestone)
    (h3 : a.status = b.status) (h4 : a.room = b.room)
    (h5 : a.renovation_purpose = b.renovation_purpose)
    (h6 : a.budget_range = b.budget_range) (h7 : a.timeline = b.timeline)
    (h8 : a.style_preference = b.style_preference)
    (h9 : a.priority_feature = b.priority_feature)
    (h10 : a.milestone1_completed = b.milestone1_completed)
    (h11 : a.milestone2_completed = b.milestone2_completed)
    (h12 : a.milestone3_completed = b.milestone3_completed)
    (h13 : a.milestone1_completed_at = b.milestone1_completed_at)
    (h14 : a.milestone2_completed_at = b.milestone2_completed_at)
    (h15 : a.milestone3_completed_at = b.milestone3_completed_at) : a = b := by
  cases a; cases b
  simp_all

theorem milestone1_complete_update (j : Journey) (t : Nat) :
    milestone1_complete (update_milestone j t) = milestone1_complete j := by
  unfold milestone1_complete
  rw [update_milestone_room, update_milestone_purpose]

theorem milestone2_complete_update (j : Journey) (t : Nat) :
    milestone2_complete (update_milestone j t) = milestone2_complete j := by
  unfold milestone2_complete
  rw [update_milestone_budget, update_milestone_timeline]

theorem milestone3_complete_update (j : Journey) (t : Nat) :
    milestone3_complete (update_milestone j t) = milestone3_complete j := by
  unfold milestone3_complete
  rw [update_milestone_style, update_milestone_feature]

theorem highest_completed_update (j : Journey) (t : Nat) :
    highest_completed_milestone (update_milestone j t) =
      highest_completed_milestone j := by
  unfold highest_completed_milestone
  rw [milestone1_complete_update, milestone2_complete_update,
    milestone3_complete_update]

theorem update_milestone_idem (j : Journey) (t1 t2 : Nat) :
    update_milestone (update_milestone j t1) t2 = update_milestone j t1 := by
  apply Journey.eq_of_fields
  · exact update_milestone_id _ t2
  · rw [update_milestone_current, highest_completed_update,
      update_milestone_current]
    by_cases hP : highest_completed_milestone j < 3 ∧
        j.current_milestone < highest_completed_milestone j + 1
    · rw [if_pos hP]
      simp
    · rw [if_neg hP, if_neg hP]
  · rw [update_milestone_status, milestone3_complete_update,
      update_milestone_flag3, update_milestone_status]
    cases hb3 : milestone3_complete j && !j.milestone3_completed <;> simp [hb3]
  · exact update_milestone_room _ t2
  · exact update_milestone_purpose _ t2
  · exact update_milestone_budget _ t2
  · exact update_milestone_timeline _ t2
  · exact update_milestone_style _ t2
  · exact update_milestone_feature _ t2
  · rw [update_milestone_flag1, milestone1_complete_update,
      update_milestone_flag1]
    cases hb1 : milestone1_complete j && !j.milestone1_completed <;> simp [hb1]
  · rw [update_milestone_flag2, milestone2_complete_update,
      update_milestone_flag2]
    cases hb2 : milestone2_complete j && !j.milestone2_completed <;> simp [hb2]
  · rw [update_milestone_flag3, milestone3_complete_update,
      update_milestone_flag3]
    cases hb3 : milestone3_complete j && !j.milestone3_completed <;> simp [hb3]
  · rw [update_milestone_at1, milestone1_complete_update,
      update_milestone_flag1, update_milestone_at1]
    cases hb1 : milestone1_complete j && !j.milestone1_completed <;> simp [hb1]
  · rw [update_milestone_at2, milestone2_complete_update,
      update_milestone_flag2, update_milestone_at2]
    cases hb2 : milestone2_complete j && !j.milestone2_completed <;> simp [hb2]
  · rw [update_milestone_at3, milestone3_complete_update,
      update_milestone_flag3, update_milestone_at3]
    cases hb3 : milestone3_complete j && !j.milestone3_completed <;> simp [hb3]

theorem data_isEmpty_false {v : String} (hv : v ≠ "") : v.data.isEmpty = false := by
  cases v with
  | mk data =>
      cases data with
      | nil => exact absurd rfl hv
      | cons c cs => rfl

theorem handler_writes_value_aux (j : Journey) (name v : String) (t : Nat)
    (hid : ¬ j.id = 0) (hne : (name.data.isEmpty || v.data.isEmpty) = false)
    (hmem : name ∈ valid_checkpoints) :
    update_journey (some j) j.id (some name) (some v) t =
      (some (update_milestone (setCheckpoint j name v) t),
       HandlerOutcome.success) := by
  unfold update_journey
  rw [if_neg hid]
  dsimp only
  rw [hne, if_neg (show ¬ false = true by simp), if_pos hmem]
  simp [getJourney]

theorem handler_writes_value (j : Journey) (name v : String) (t : Nat)
    (hid : j.id ≠ 0) (hname : name ∈ valid_checkpoints) (hv : v ≠ "") :
    update_journey (some j) j.id (some name) (some v) t =
      (some (update_milestone (setCheckpoint j name v) t),
       HandlerOutcome.success) := by
  have hvd : v.data.isEmpty = false := data_isEmpty_false hv
  have hnm : name.data.isEmpty = false := by
    simp only [valid_checkpoints, List.mem_cons, List.not_mem_nil, or_false] at hname
    rcases hname with rfl | rfl | rfl | rfl | rfl | rfl <;> rfl
  have hne : (name.data.isEmpty || v.data.isEmpty) = false := by
    rw [hnm, hvd]
    rfl
  exact handler_writes_value_aux j name v t hid hne hname

theorem getCheckpoint_after_write (j : Journey) (name v : String) (t : Nat)
    (hname : name ∈ valid_checkpoints) :
    getCheckpoint (update_milestone (setCheckpoint j name v) t) name = some v := by
  simp only [valid_checkpoints, List.mem_cons, List.not_mem_nil, or_false] at hname
  rcases hname with rfl | rfl | rfl | rfl | rfl | rfl
  · show (update_milestone (setCheckpoint j "room" v) t).room = some v
    rw [update_milestone_room, setCheckpoint_room_eq]
  · show (update_milestone (setCheckpoint j "renovation_purpose" v) t).renovation_purpose
        = some v
    rw [update_milestone_purpose, setCheckpoint_purpose_eq]
  · show (update_milestone (setCheckpoint j "budget_range" v) t).budget_range = some v
    rw [update_milestone_budget, setCheckpoint_budget_eq]
  · show (update_milestone (setCheckpoint j "timeline" v) t).timeline = some v
    rw [update_milestone_timeline, setCheckpoint_timeline_eq]
  · show (update_milestone (setCheckpoint j "style_preference" v) t).style_preference
        = some v
    rw [update_milestone_style, setCheckpoint_style_eq]
  · show (update_milestone (setCheckpoint j "priority_feature" v) t).priority_feature
        = some v
    rw [update_milestone_feature, setCheckpoint_feature_eq]

/-- A journey at milestone 1 whose only filled checkpoint is `room`. -/
def kitchenOnlyJourney : Journey :=
  { create_journey 1 with room := some "kitchen" }

/-- A journey at milestone 2 whose milestone-1 checkpoints are done and
whose milestone-2 checkpoints are still null. -/
def journeyAtBudget : Journey :=
  { create_journey 1 with
      current_milestone := 2
      room := some "kitchen"
      renovation_purpose := some "aesthetic"
      milestone1_completed := true
      milestone1_completed_at := some 0 }

/-- A journey at milestone 2 with all six checkpoints filled and no flag
yet set (reachable through the explicit journey-update API). -/
def journeyAllSetAtTwo : Journey :=
  { create_journey 1 with
      current_milestone := 2
      room := some "kitchen"
      renovation_purpose := some "modernize"
      budget_range := some "medium"
      timeline := some "months"
      style_preference := some "modern"
      priority_feature := some "storage" }

/-- Environment for an `analyze` run whose `db.commit()` raises. -/
def failingEnv : AnalyzeEnv :=
  { toolCalls := [], llmRaised := true, commitRaises := true,
    refetchRaises := false, t := 0 }

/-- Claim C1, counterexample: the journey's `room` is already
`some "kitchen"`, yet one `update_journey` tool call proposing
`room = "bathroom"` succeeds and the persisted journey holds
`some "bathroom"` — the automatic path does overwrite a filled field. -/
theorem first_write_wins_counterexample :
    kitchenOnlyJourney.room = some "kitchen" ∧
    (update_journey (some kitchenOnlyJourney) 1 (some "room") (some "bathroom")
        0).2 = HandlerOutcome.success ∧
    ((update_journey (some kitchenOnlyJourney) 1 (some "room") (some "bathroom")
        0).1.map Journey.room) = some (some "bathroom") :=
  ⟨rfl, rfl, rfl⟩

/-- Claim C1 as amended: the Sentinel's `update_journey` tool handler
enforces no first-write-wins check at all — for every journey, every valid
checkpoint name and every non-empty value it reports success and persists
exactly the proposed value in that field, whether or not the field was
already non-null. -/
theorem sentinel_handler_overwrites_filled_checkpoint (j : Journey)
    (name v : String) (t : Nat) (hid : j.id ≠ 0)
    (hname : name ∈ valid_checkpoints) (hv : v ≠ "") :
    (update_journey (some j) j.id (some name) (some v) t).2 =
      HandlerOutcome.success ∧
    ((update_journey (some j) j.id (some name) (some v) t).1.map
        (fun r => getCheckpoint r name)) = some (some v) := by
  rw [handler_writes_value j name v t hid hname hv]
  refine ⟨rfl, ?_⟩
  show some (getCheckpoint (update_milestone (setCheckpoint j name v) t) name) =
    some (some v)
  rw [getCheckpoint_after_write j name v t hname]

/-- Witness for C1's amended theorem at a concrete filled journey. -/
theorem sentinel_handler_overwrites_filled_checkpoint_witness :
    (update_journey (some kitchenOnlyJourney) kitchenOnlyJourney.id (some "room")
        (some "bathroom") 0).2 = HandlerOutcome.success ∧
    ((update_journey (some kitchenOnlyJourney) kitchenOnlyJourney.id (some "room")
        (some "bathroom") 0).1.map (fun r => getCheckpoint r "room")) =
      some (some "bathroom") :=
  sentinel_handler_overwrites_filled_checkpoint kitchenOnlyJourney "room"
    "bathroom" 0 (by decide) (by decide) (by decide)

/-- Claim C2, counterexample: the journey's current target is `room`
(milestone 1), yet a tool call naming `style_preference` — a milestone-3
checkpoint — succeeds and changes the journey. -/
theorem target_guardrail_counterexample :
    ((get_next_checkpoint_to_extract (create_journey 1)).map Prod.snd) =
      some "room" ∧
    (update_journey (some (create_journey 1)) 1 (some "style_preference")
        (some "modern") 0).2 = HandlerOutcome.success ∧
    ((update_journey (some (create_journey 1)) 1 (some "style_preference")
        (some "modern") 0).1.map Journey.style_preference) =
      some (some "modern") :=
  ⟨rfl, rfl, rfl⟩

/-- Claim C2 as amended: the tool handler validates the checkpoint name
only against the fixed six-name list, never against the journey's current
target; every one of the six names is accepted and committed, and only a
name outside the six is rejected, leaving the store unchanged. -/
theorem handler_checkpoint_validation :
    (∀ (j : Journey) (name v : String) (t : Nat),
        j.id ≠ 0 → name ∈ valid_checkpoints → v ≠ "" →
        (update_journey (some j) j.id (some name) (some v) t).2 =
          HandlerOutcome.success) ∧
    (∀ (db : Option Journey) (jid : Int) (name v : String) (t : Nat),
        name ∉ valid_checkpoints →
        (update_journey db jid (some name) (some v) t).1 = db ∧
        (update_journey db jid (some name) (some v) t).2 ≠
          HandlerOutcome.success) := by
  constructor
  · intro j name v t hid hname hv
    rw [handler_writes_value j name v t hid hname hv]
  · intro db jid name v t hname
    unfold update_journey
    dsimp only
    split_ifs with h0 he
    · exact ⟨rfl, by simp⟩
    · exact ⟨rfl, by simp⟩
    · exact ⟨rfl, by simp⟩

/-- Witness for C2's amended theorem: a valid off-target name accepted, an
invalid name rejected. -/
theorem handler_checkpoint_validation_witness :
    (update_journey (some (create_journey 2)) (create_journey 2).id
        (some "timeline") (some "weeks") 0).2 = HandlerOutcome.success ∧
    (update_journey (some (create_journey 2)) 2 (some "color") (some "red")
        0).1 = some (create_journey 2) :=
  ⟨handler_checkpoint_validation.1 (create_journey 2) "timeline" "weeks" 0
      (by decide) (by decide) (by decide),
   (handler_checkpoint_validation.2 (some (create_journey 2)) 2 "color" "red" 0
      (by decide)).1⟩

/-- Claim C3, counterexample: for the raw model value
`"very affordable option"` the normalizer yields the canonical `"low"`,
but the extraction path persists the raw string itself, which is not in
the `budget_range` vocabulary. -/
theorem normalization_counterexample :
    validate_checkpoint_value "budget_range" "very affordable option" = "low" ∧
    ((update_journey (some journeyAtBudget) 1 (some "budget_range")
        (some "very affordable option") 0).1.map Journey.budget_range) =
      some (some "very affordable option") ∧
    "very affordable option" ∉ ["low", "medium", "high"] :=
  ⟨rfl, rfl, by decide⟩

/-- Claim C3 as amended: the Sentinel extraction path persists the model's
raw value verbatim; `_validate_checkpoint_value` is never applied on this
path, so the stored value need not belong to the canonical vocabulary. -/
theorem sentinel_persists_raw_value (j : Journey) (v : String) (t : Nat)
    (hid : j.id ≠ 0) (hv : v ≠ "") :
    ((update_journey (some j) j.id (some "budget_range") (some v) t).1.map
        Journey.budget_range) = some (some v) := by
  rw [handler_writes_value j "budget_range" v t hid (by decide) hv]
  show some (update_milestone (setCheckpoint j "budget_range" v) t).budget_range =
    some (some v)
  rw [update_milestone_budget, setCheckpoint_budget_eq]

/-- Witness for C3's amended theorem at a concrete raw string. -/
theorem sentinel_persists_raw_value_witness :
    ((update_journey (some journeyAtBudget) journeyAtBudget.id
        (some "budget_range") (some "totally unclear") 0).1.map
        Journey.budget_range) = some (some "totally unclear") :=
  sentinel_persists_raw_value journeyAtBudget "totally unclear" 0 (by decide)
    (by decide)

/-- Claim C4: starting from the freshly created journey, any sequence of
checkpoint writes (all with non-null values), completion-evaluator runs of
either variant, and Sentinel tool-handler calls keeps the invariant that
each `milestoneN_completed` flag implies both of milestone N's checkpoint
fields are non-null. -/
theorem completion_flag_invariant (jid : Int) (ops : List SentinelOp) :
    checkpointInv (ops.foldl applyOp (create_journey jid)) := by
  apply checkpointInv_foldl
  refine ⟨?_, ?_, ?_⟩ <;> intro h <;> simp [create_journey] at h

/-- Claim C5, counterexample: a journey sitting at `current_milestone = 2`
with all six checkpoints filled; `update_milestone` flags milestone 3 as
completed but leaves `current_milestone` at 2, not the claimed
`min(3, highest_fully_completed_milestone + 1) = 3`. -/
theorem milestone_recompute_counterexample :
    journeyAllSetAtTwo.current_milestone = 2 ∧
    milestone3_complete journeyAllSetAtTwo = true ∧
    (update_milestone journeyAllSetAtTwo 0).milestone3_completed = true ∧
    (update_milestone journeyAllSetAtTwo 0).current_milestone = 2 ∧
    (update_milestone journeyAllSetAtTwo 0).current_milestone ≠ 3 :=
  ⟨rfl, rfl, rfl, rfl, by decide⟩

/-- Claim C5 as amended: `update_milestone` evaluates all three milestones
unconditionally (each completion flag ends up as the disjunction of its
completion test and its old value); it raises `current_milestone` to
`highest_completed_milestone + 1` only when `highest_completed_milestone`
is below 3 and the journey is behind — when milestone 3 is fully complete
it leaves `current_milestone` untouched — and across any operation
sequence `current_milestone` never decreases. -/
theorem milestone_recompute_amended :
    (∀ (j : Journey) (t : Nat),
        (update_milestone j t).milestone1_completed =
          (milestone1_complete j || j.milestone1_completed) ∧
        (update_milestone j t).milestone2_completed =
          (milestone2_complete j || j.milestone2_completed) ∧
        (update_milestone j t).milestone3_completed =
          (milestone3_complete j || j.milestone3_completed) ∧
        (update_milestone j t).current_milestone =
          (if highest_completed_milestone j < 3 ∧
              j.current_milestone < highest_completed_milestone j + 1 then
            highest_completed_milestone j + 1
          else j.current_milestone)) ∧
    (∀ (j : Journey) (ops : List SentinelOp),
        j.current_milestone ≤ (ops.foldl applyOp j).current_milestone) := by
  constructor
  · intro j t
    refine ⟨?_, ?_, ?_, update_milestone_current j t⟩
    · rw [update_milestone_flag1]
      cases hm : milestone1_complete j <;> cases hf : j.milestone1_completed <;>
        simp [hm, hf]
    · rw [update_milestone_flag2]
      cases hm : milestone2_complete j <;> cases hf : j.milestone2_completed <;>
        simp [hm, hf]
    · rw [update_milestone_flag3]
      cases hm : milestone3_complete j <;> cases hf : j.milestone3_completed <;>
        simp [hm, hf]
  · intro j ops
    exact current_milestone_foldl ops j

/-- Claim C6: both completion-evaluator variants are idempotent — running
either twice in a row (at any pair of timestamps) produces exactly the
journey state of the first run, so a re-run on an already-evaluated
journey changes no field, flag, timestamp, milestone or status. -/
theorem completion_evaluator_idempotent (j : Journey) (t1 t2 : Nat) :
    check_milestone_completion (check_milestone_completion j t1) t2 =
      check_milestone_completion j t1 ∧
    update_milestone (update_milestone j t1) t2 = update_milestone j t1 :=
  ⟨check_milestone_completion_idem j t1 t2, update_milestone_idem j t1 t2⟩

/-- Claim C7: `get_prompt_for_journey` realises exactly the claimed
priority tree (it coincides with the tree transcribed from the
specification on every journey and completed-checkpoint list), and on the
concrete milestone-1 journey with `room = "kitchen"` and null
`renovation_purpose` it selects the room-known template, not the intro. -/
theorem prompt_selector_priority_tree :
    (∀ (j : Journey) (completed_checkpoints : List String),
        get_prompt_for_journey j completed_checkpoints =
          prompt_selection_spec j completed_checkpoints) ∧
    get_completed_checkpoints kitchenOnlyJourney = ["room"] ∧
    get_prompt_for_journey kitchenOnlyJourney
        (get_completed_checkpoints kitchenOnlyJourney) =
      PromptChoice.milestone1RoomKnown ∧
    PromptChoice.milestone1RoomKnown ≠ PromptChoice.milestone1Intro :=
  ⟨fun _ _ => rfl, rfl, rfl, by decide⟩

/-- Claim C8: `_validate_checkpoint_value` is a pure function returning
the claimed canonical values on the claimed inputs, the documented
defaults (`medium`, `months`, `modern`, `space`) on unmatched input, and
its fixed checked-first category order decides multi-keyword matches
(`"open space"` falls into `storage` because the storage row's `"space"`
keyword is tested before the `space` category; `"clean"` falls into
`modern` before `minimalist`); stripping and lowercasing happen first. -/
theorem normalizer_determinism_and_defaults :
    validate_checkpoint_value "budget_range" "very affordable option" = "low" ∧
    validate_checkpoint_value "timeline" "need it done in two weeks" = "weeks" ∧
    validate_checkpoint_value "style_preference" "something with clean lines" =
      "modern" ∧
    validate_checkpoint_value "priority_feature" "eco-friendly appliances please" =
      "energy efficiency" ∧
    validate_checkpoint_value "budget_range" "no idea yet" = "medium" ∧
    validate_checkpoint_value "timeline" "unsure" = "months" ∧
    validate_checkpoint_value "style_preference" "whatever suits" = "modern" ∧
    validate_checkpoint_value "priority_feature" "anything" = "space" ∧
    validate_checkpoint_value "priority_feature" "open space" = "storage" ∧
    validate_checkpoint_value "style_preference" "clean" = "modern" ∧
    validate_checkpoint_value "budget_range" "  CHEAP  " = "low" :=
  ⟨rfl, rfl, rfl, rfl, rfl, rfl, rfl, rfl, rfl, rfl, rfl⟩

/-- Claim C9, counterexample: at milestone 1 with both checkpoints null
the extraction target is `room` alone, yet the fallback keyword extractor
run on "I want a modern kitchen" writes both `room` and — via the
`"modern" → "modernize"` purpose keyword — `renovation_purpose` in the
same call, so the other checkpoint of the milestone does not stay
unchanged. -/
theorem fallback_two_writes_counterexample :
    ((get_next_checkpoint_to_extract (create_journey 1)).map Prod.snd) =
      some "room" ∧
    (create_journey 1).renovation_purpose = none ∧
    (analyze_message_for_checkpoints (create_journey 1)
        "I want a modern kitchen" 0).room = some "kitchen" ∧
    (analyze_message_for_checkpoints (create_journey 1)
        "I want a modern kitchen" 0).renovation_purpose = some "modernize" :=
  ⟨rfl, rfl, rfl, rfl⟩

/-- Claim C10: `Sentinel.analyze` catches every exception its body can
raise — a failing `db.commit()`, a raising re-fetch, or the
`AttributeError` triggered when the re-fetch returns nothing (an LLM-call
failure is already swallowed by the inner handler) — and in every such
case the caller receives the original journey object back, exactly as it
would after an analysis that extracted nothing; by construction `analyze`
itself always returns. -/
theorem sentinel_analyze_returns_original_on_failure (env : AnalyzeEnv)
    (db : Option Journey) (j : Journey)
    (h : env.commitRaises = true ∨ env.refetchRaises = true ∨
         getJourney (runToolCalls db env.toolCalls env.t) j.id = none) :
    (analyze env db j).2 = j := by
  unfold analyze analyzeBody
  rcases h with hc | hr | hn
  · simp [hc]
  · cases hcommit : env.commitRaises <;> simp [hcommit, hr]
  · cases hcommit : env.commitRaises <;> cases hrf : env.refetchRaises <;>
      simp [hcommit, hrf, hn]

/-- Witness for C10 at a concrete failing environment. -/
theorem sentinel_analyze_returns_original_on_failure_witness :
    (analyze failingEnv (some (create_journey 1)) (create_journey 1)).2 =
      create_journey 1 :=
  sentinel_analyze_returns_original_on_failure failingEnv
    (some (create_journey 1)) (create_journey 1) (Or.inl rfl)

/-- Claim C9 as amended: the fallback keyword extractor writes at most the
two checkpoint fields of the current milestone — each only when it is
currently unfilled, with the value of the first matching keyword of its
table, bypassing the normalizer — and every checkpoint field of any other
milestone, as well as every already-filled field, is left unchanged. -/
theorem fallback_extractor_frame (j : Journey) (message : String) (t : Nat) :
    (j.current_milestone ≠ 1 →
      (analyze_message_for_checkpoints j message t).room = j.room ∧
      (analyze_message_for_checkpoints j message t).renovation_purpose =
        j.renovation_purpose) ∧
    (j.current_milestone ≠ 2 →
      (analyze_message_for_checkpoints j message t).budget_range =
        j.budget_range ∧
      (analyze_message_for_checkpoints j message t).timeline = j.timeline) ∧
    (j.current_milestone ≠ 3 →
      (analyze_message_for_checkpoints j message t).style_preference =
        j.style_preference ∧
      (analyze_message_for_checkpoints j message t).priority_feature =
        j.priority_feature) ∧
    (truthy j.room = true →
      (analyze_message_for_checkpoints j message t).room = j.room) ∧
    (truthy j.renovation_purpose = true →
      (analyze_message_for_checkpoints j message t).renovation_purpose =
        j.renovation_purpose) ∧
    (truthy j.budget_range = true →
      (analyze_message_for_checkpoints j message t).budget_range =
        j.budget_range) ∧
    (truthy j.timeline = true →
      (analyze_message_for_checkpoints j message t).timeline = j.timeline) ∧
    (truthy j.style_preference = true →
      (analyze_message_for_checkpoints j message t).style_preference =
        j.style_preference) ∧
    (truthy j.priority_feature = true →
      (analyze_message_for_checkpoints j message t).priority_feature =
        j.priority_feature) := by
  unfold analyze_message_for_checkpoints
  by_cases h1 : j.current_milestone = 1
  · cases hr : truthy j.room <;> cases hp : truthy j.renovation_purpose <;>
      rcases hmr : firstKeywordMatch room_keywords (pyLower message)
          with _ | rv <;>
        rcases hmp : firstKeywordMatch purpose_keywords (pyLower message)
            with _ | pv <;>
          simp_all [optUpdate, List.foldl, check_completion_room,
            check_completion_purpose, check_completion_budget,
            check_completion_timeline, check_completion_style,
            check_completion_feature, setCheckpoint_room_eq,
            setCheckpoint_purpose_eq]
  · by_cases h2 : j.current_milestone = 2
    · cases hb : truthy j.budget_range <;> cases ht : truthy j.timeline <;>
        rcases hmb : firstKeywordMatch budget_keywords (pyLower message)
            with _ | bv <;>
          rcases hmt : firstKeywordMatch timeline_keywords (pyLower message)
              with _ | tv <;>
            simp_all [optUpdate, List.foldl, check_completion_room,
              check_completion_purpose, check_completion_budget,
              check_completion_timeline, check_completion_style,
              check_completion_feature, setCheckpoint_budget_eq,
              setCheckpoint_timeline_eq]
    · by_cases h3 : j.current_milestone = 3
      · cases hs : truthy j.style_preference <;>
          cases hf : truthy j.priority_feature <;>
            rcases hms : firstKeywordMatch style_keywords (pyLower message)
                with _ | sv <;>
              rcases hmf : firstKeywordMatch feature_keywords (pyLower message)
                  with _ | fv <;>
                simp_all [optUpdate, List.foldl, check_completion_room,
                  check_completion_purpose, check_completion_budget,
                  check_completion_timeline, check_completion_style,
                  check_completion_feature, setCheckpoint_style_eq,
                  setCheckpoint_feature_eq]
      · simp_all

/-- Witness for C9's amended theorem: on a journey whose `room` is filled,
the fallback run leaves `room` unchanged. -/
theorem fallback_extractor_frame_witness :
    (analyze_message_for_checkpoints kitchenOnlyJourney
        "make it modern and quick" 0).room = kitchenOnlyJourney.room :=
  (fallback_extractor_frame kitchenOnlyJourney "make it modern and quick"
      0).2.2.2.1 rfl
